import Mathlib

unseal Rat.mul Rat.inv Rat.add Rat.sub Rat.ofScientific

/-!
Verification of the annotation-overlay renderer of `app.py`
(document-processing viewer for `ipos-fst/public_artefacts`).

The Python program draws, for each PDF page, semi-transparent rectangles
for layout blocks (figure, table, text, header/title, footer) over the
rasterized page image, using PIL.  The shallow embedding below models:

* pixels as exact `Nat` RGBA quadruples and images as total pixel maps
  with a width, a height and a pixel mode (`RGB` or `RGBA`);
* `PIL.ImageDraw.rectangle` with `fill`: both corner points inclusive,
  clipped to the image, the y-pair swapped when given in reverse order
  (Pillow `Geometry.c` / `draw_hline` semantics);
* `PIL.Image.alpha_composite`: Porter-Duff over with Pillow's exact
  integer arithmetic (`AlphaComposite.c`, 7 precision bits), raising
  `ValueError` when a argument is not RGBA or the sizes differ;
* `img.convert('RGBA')`: adds a fully opaque alpha channel to an RGB
  image, copies an RGBA image;
* Python `int()` applied to a nonnegative product as the rational floor
  (truncation toward zero in general), bounding-box fractions as exact
  rationals.

Fallible steps are `Except`-valued, so "raises no error" is statable.
-/

/-- An 8-bit-per-channel RGBA pixel (each field is intended in 0..255). -/
structure RGBA where
  r : Nat
  g : Nat
  b : Nat
  a : Nat
  deriving DecidableEq, Repr

/-- Pixel modes that occur in `app.py`: the rasterized page starts as RGB,
overlays and composited results are RGBA. -/
inductive Mode where
  | RGB
  | RGBA
  deriving DecidableEq, Repr

/-- A raster image: dimensions, mode and a total pixel map.  Pixels outside
`[0, width) x [0, height)` are irrelevant (drawing never touches them). -/
structure Img where
  width : Nat
  height : Nat
  mode : Mode
  px : Nat → Nat → RGBA

/-- The fully transparent pixel used for fresh overlays,
`Image.new('RGBA', size, (0, 0, 0, 0))`. -/
def clear : RGBA := ⟨0, 0, 0, 0⟩

/-- Python `int()` on an exact rational: truncation toward zero. -/
def pyInt (q : ℚ) : ℤ :=
  if 0 ≤ q then q.floor else q.ceil

/-- Pillow's `SHIFTFORDIV255` macro: fixed-point division by 255. -/
def SHIFTFORDIV255 (x : Nat) : Nat :=
  ((x >>> 8) + x) >>> 8

/-- One output pixel of `PIL.Image.alpha_composite` (`AlphaComposite.c`,
`PRECISION_BITS = 7`): Porter-Duff source-over in Pillow's exact integer
arithmetic.  `dst` is the lower pixel, `src` the upper. -/
def pilOver (dst src : RGBA) : RGBA :=
  if src.a = 0 then dst
  else if src.a = 255 then src
  else
    let blend := dst.a * (255 - src.a)
    let outa255 := src.a * 255 + blend
    let coef1 := src.a * 255 * 255 * 128 / outa255
    let coef2 := 255 * 128 - coef1
    let mix := fun (sc dc : Nat) => SHIFTFORDIV255 (sc * coef1 + dc * coef2 + 128 * 128) >>> 7
    ⟨mix src.r dst.r, mix src.g dst.g, mix src.b dst.b, SHIFTFORDIV255 (outa255 + 128)⟩

/-- `img.convert('RGBA')`: an RGB image gains a fully opaque alpha channel,
an RGBA image is returned as an (independent) copy. -/
def convertRGBA (img : Img) : Img :=
  { img with
    mode := Mode.RGBA
    px := fun x y =>
      match img.mode with
      | Mode.RGB => { img.px x y with a := 255 }
      | Mode.RGBA => img.px x y }

/-- `Image.new('RGBA', (w, h), color)`. -/
def image_new (w h : Nat) (color : RGBA) : Img :=
  ⟨w, h, Mode.RGBA, fun _ _ => color⟩

/-- `PIL.Image.alpha_composite(dst, src)`: raises `ValueError` unless both
images are RGBA of the same size; otherwise applies `pilOver` pixelwise. -/
def alpha_composite (dst src : Img) : Except String Img :=
  if dst.mode = Mode.RGBA ∧ src.mode = Mode.RGBA then
    if dst.width = src.width ∧ dst.height = src.height then
      Except.ok
        { width := dst.width, height := dst.height, mode := Mode.RGBA,
          px := fun x y => pilOver (dst.px x y) (src.px x y) }
    else Except.error "images do not match"
  else Except.error "image has wrong mode"

/-- `draw.rectangle([(x0, y0), (x1, y1)], fill)` on `img` (PIL semantics):
both corners inclusive, the y-pair swapped when `y1 < y0`, nothing drawn on
a row when `x1 < x0`, clipped to the image bounds.  Returns the mutated
image value. -/
def draw_rectangle (img : Img) (x0 y0 x1 y1 : ℤ) (fill : RGBA) : Img :=
  { img with
    px := fun x y =>
      if x0 ≤ (x : ℤ) ∧ (x : ℤ) ≤ x1 ∧
         min y0 y1 ≤ (y : ℤ) ∧ (y : ℤ) ≤ max y0 y1 ∧
         x < img.width ∧ y < img.height
      then fill else img.px x y }

/-- One extracted layout block, with the fields of `app.py` uses:
`BlockType`, `Page` and `Geometry.BoundingBox` fractions. -/
structure Block where
  BlockType : String
  Page : Nat
  Left : ℚ
  Top : ℚ
  Width : ℚ
  Height : ℚ
  deriving DecidableEq, Repr

/-- The scratch overlay for one block: fractional bounding box converted
with `int(img_width * ...)` against the page dimensions `W`, `H` captured
from the base image, drawn on a transparent canvas of the current image's
size `cw`, `ch`. -/
def blockOverlay (W H cw ch : Nat) (fill : RGBA) (block : Block) : Img :=
  let left := pyInt ((W : ℚ) * block.Left)
  let top := pyInt ((H : ℚ) * block.Top)
  let width := pyInt ((W : ℚ) * block.Width)
  let height := pyInt ((H : ℚ) * block.Height)
  draw_rectangle (image_new cw ch clear) left top (left + width) (top + height) fill

/-- One iteration of a per-category drawing loop of `app.py` (lines
190-209 and its four clones): build the transparent overlay, draw the
block's rectangle, then `img = Image.alpha_composite(img.convert('RGBA'),
overlay)`. -/
def drawBlockStep (W H : Nat) (fill : RGBA) (img : Img) (block : Block) :
    Except String Img :=
  alpha_composite (convertRGBA img) (blockOverlay W H img.width img.height fill block)

/-- One whole per-category loop: fold `drawBlockStep` over the category's
blocks in order. -/
def drawGroup (W H : Nat) (fill : RGBA) (img : Img) (blocks : List Block) :
    Except String Img :=
  blocks.foldlM (fun acc block => drawBlockStep W H fill acc block) img

/-- Fill color of the figure loop, literal `(255, 0, 0, 64)` in `app.py`. -/
def figureFill : RGBA := ⟨255, 0, 0, 64⟩

/-- Fill color of the table loop, literal `(0, 0, 255, 64)`. -/
def tableFill : RGBA := ⟨0, 0, 255, 64⟩

/-- Fill color of the text loop, literal `(0, 255, 0, 64)`. -/
def textFill : RGBA := ⟨0, 255, 0, 64⟩

/-- Fill color of the header/title loop, literal `(128, 0, 128, 64)`. -/
def headerFill : RGBA := ⟨128, 0, 128, 64⟩

/-- Fill color of the footer loop, literal `(255, 255, 0, 64)`. -/
def footerFill : RGBA := ⟨255, 255, 0, 64⟩

/-- The module-level `BLOCK_COLORS` legend table of `app.py`, in source
order. -/
def BLOCK_COLORS : List (String × RGBA) :=
  [("LAYOUT_FIGURE", ⟨255, 0, 0, 64⟩),
   ("LAYOUT_TABLE", ⟨0, 0, 255, 64⟩),
   ("LAYOUT_TEXT", ⟨0, 255, 0, 64⟩),
   ("LAYOUT_HEADER/TITLE", ⟨128, 0, 128, 64⟩),
   ("LAYOUT_FOOTER", ⟨255, 255, 0, 64⟩)]

/-- `page_figure_blocks` of the per-page grouping loop (lines 162-179):
blocks of the page whose `BlockType` is `LAYOUT_FIGURE`. -/
def page_figure_blocks (all_blocks : List Block) (page_num : Nat) : List Block :=
  (all_blocks.filter (fun block => block.Page == page_num)).filter
    (fun block => block.BlockType == "LAYOUT_FIGURE")

/-- `page_table_blocks` of the grouping loop. -/
def page_table_blocks (all_blocks : List Block) (page_num : Nat) : List Block :=
  (all_blocks.filter (fun block => block.Page == page_num)).filter
    (fun block => block.BlockType == "LAYOUT_TABLE")

/-- `page_text_blocks` of the grouping loop. -/
def page_text_blocks (all_blocks : List Block) (page_num : Nat) : List Block :=
  (all_blocks.filter (fun block => block.Page == page_num)).filter
    (fun block => block.BlockType == "LAYOUT_TEXT")

/-- `page_header_blocks` of the grouping loop: membership test against
`['LAYOUT_SECTION_HEADER', 'LAYOUT_HEADER', 'LAYOUT_TITLE']`. -/
def page_header_blocks (all_blocks : List Block) (page_num : Nat) : List Block :=
  (all_blocks.filter (fun block => block.Page == page_num)).filter
    (fun block =>
      block.BlockType == "LAYOUT_SECTION_HEADER" ||
      block.BlockType == "LAYOUT_HEADER" ||
      block.BlockType == "LAYOUT_TITLE")

/-- `page_footer_blocks` of the grouping loop. -/
def page_footer_blocks (all_blocks : List Block) (page_num : Nat) : List Block :=
  (all_blocks.filter (fun block => block.Page == page_num)).filter
    (fun block => block.BlockType == "LAYOUT_FOOTER")

/-- `page_line_blocks` of the grouping loop (displayed as text, not drawn). -/
def page_line_blocks (all_blocks : List Block) (page_num : Nat) : List Block :=
  (all_blocks.filter (fun block => block.Page == page_num)).filter
    (fun block => block.BlockType == "LINE")

/-- The per-page renderer (lines 184-295 of `app.py`, `col1` branch):
starting from the rasterized page image, draw the five category groups in
the fixed source order figure, table, text, header/title, footer. -/
def renderPage (base : Img) (all_blocks : List Block) (page_num : Nat) :
    Except String Img := do
  let W := base.width
  let H := base.height
  let img ← drawGroup W H figureFill base (page_figure_blocks all_blocks page_num)
  let img ← drawGroup W H tableFill img (page_table_blocks all_blocks page_num)
  let img ← drawGroup W H textFill img (page_text_blocks all_blocks page_num)
  let img ← drawGroup W H headerFill img (page_header_blocks all_blocks page_num)
  let img ← drawGroup W H footerFill img (page_footer_blocks all_blocks page_num)
  return img

/-- Projection used to state pixel-level facts about a fallible render. -/
def getPx (res : Except String Img) (x y : Nat) : Option RGBA :=
  match res with
  | Except.ok img => some (img.px x y)
  | Except.error _ => none

/-- Projection of the mode of a fallible render. -/
def getMode (res : Except String Img) : Option Mode :=
  match res with
  | Except.ok img => some img.mode
  | Except.error _ => none

/-- The rectangle-interior test of `draw_rectangle` for a block, against a
`W`-by-`H` image (corners inclusive, image-clipped, y-pair order-normalized
exactly as in `draw_rectangle`): the pixels of that image which
`blockOverlay W H W H` paints. -/
abbrev paintsAt (W H : Nat) (block : Block) (x y : Nat) : Prop :=
  pyInt ((W : ℚ) * block.Left) ≤ (x : ℤ) ∧
  (x : ℤ) ≤ pyInt ((W : ℚ) * block.Left) + pyInt ((W : ℚ) * block.Width) ∧
  min (pyInt ((H : ℚ) * block.Top))
      (pyInt ((H : ℚ) * block.Top) + pyInt ((H : ℚ) * block.Height)) ≤ (y : ℤ) ∧
  (y : ℤ) ≤ max (pyInt ((H : ℚ) * block.Top))
      (pyInt ((H : ℚ) * block.Top) + pyInt ((H : ℚ) * block.Height)) ∧
  x < W ∧ y < H

/-- `line_blocks` of the statistics loop (lines 128-147 of `app.py`). -/
def line_blocks (all_blocks : List Block) : List Block :=
  all_blocks.filter (fun block => block.BlockType == "LINE")

/-- `word_blocks` of the statistics loop. -/
def word_blocks (all_blocks : List Block) : List Block :=
  all_blocks.filter (fun block => block.BlockType == "WORD")

/-- `figure_blocks` of the statistics loop. -/
def figure_blocks (all_blocks : List Block) : List Block :=
  all_blocks.filter (fun block => block.BlockType == "LAYOUT_FIGURE")

/-- `table_blocks` of the statistics loop. -/
def table_blocks (all_blocks : List Block) : List Block :=
  all_blocks.filter (fun block => block.BlockType == "LAYOUT_TABLE")

/-- The `stats` dictionary of `app.py` (line 141): page count from the PDF,
then the four block-type counts.  No other `BlockType` contributes. -/
structure Stats where
  pageCount : Nat
  lineCount : Nat
  wordCount : Nat
  figureCount : Nat
  tableCount : Nat
  deriving DecidableEq, Repr

/-- Computation of the `stats` dictionary from the PDF page count and the
flat block list. -/
def stats (pageCount : Nat) (all_blocks : List Block) : Stats :=
  ⟨pageCount,
   (line_blocks all_blocks).length,
   (word_blocks all_blocks).length,
   (figure_blocks all_blocks).length,
   (table_blocks all_blocks).length⟩

/-!
Buffer-store model of the same rendering loop, for the claim that the base
image is never mutated in place.  PIL image objects live in a store of
buffers addressed by allocation index; `Image.new`, `img.convert('RGBA')`
and `Image.alpha_composite` allocate fresh buffers, while
`ImageDraw.Draw(overlay); draw.rectangle(...)` mutates the overlay buffer
in place via `store_set`.
-/

/-- A store of PIL image buffers; a buffer id is its index. -/
structure PixStore where
  bufs : List Img

/-- Allocate a fresh buffer, returning the new store and the fresh id. -/
def store_alloc (s : PixStore) (img : Img) : PixStore × Nat :=
  (⟨s.bufs ++ [img]⟩, s.bufs.length)

/-- Overwrite the buffer at an id in place (out-of-range ids: no-op). -/
def store_set (s : PixStore) (i : Nat) (img : Img) : PixStore :=
  ⟨s.bufs.set i img⟩

/-- One drawing-loop iteration on the store: read the current `img`
buffer, allocate the transparent overlay, mutate it with the rectangle,
allocate the RGBA conversion of `img`, then allocate the composite and
rebind `img` to it.  The pair is (store, id of the `img` variable). -/
def drawBlockStepSt (W H : Nat) (fill : RGBA) (sp : PixStore × Nat) (block : Block) :
    PixStore × Nat :=
  match sp.1.bufs[sp.2]? with
  | none => sp
  | some img =>
      let ov := store_alloc sp.1 (image_new img.width img.height clear)
      let s2 := store_set ov.1 ov.2 (blockOverlay W H img.width img.height fill block)
      let cv := store_alloc s2 (convertRGBA img)
      match alpha_composite (convertRGBA img)
          (blockOverlay W H img.width img.height fill block) with
      | Except.ok composed => store_alloc cv.1 composed
      | Except.error _ => (cv.1, sp.2)

/-- One per-category loop on the store. -/
def drawGroupSt (W H : Nat) (fill : RGBA) (sp : PixStore × Nat) (blocks : List Block) :
    PixStore × Nat :=
  blocks.foldl (drawBlockStepSt W H fill) sp

/-- The five category loops on the store in source order, with the page
dimensions `W`, `H` already captured. -/
def renderPageStAux (W H : Nat) (s : PixStore) (baseId : Nat)
    (all_blocks : List Block) (page_num : Nat) : PixStore × Nat :=
  let sp := drawGroupSt W H figureFill (s, baseId) (page_figure_blocks all_blocks page_num)
  let sp := drawGroupSt W H tableFill sp (page_table_blocks all_blocks page_num)
  let sp := drawGroupSt W H textFill sp (page_text_blocks all_blocks page_num)
  let sp := drawGroupSt W H headerFill sp (page_header_blocks all_blocks page_num)
  let sp := drawGroupSt W H footerFill sp (page_footer_blocks all_blocks page_num)
  sp

/-- The per-page renderer on the store: dimensions captured once from the
base buffer (line 188 of `app.py`), then the five category loops. -/
def renderPageSt (s : PixStore) (baseId : Nat) (all_blocks : List Block)
    (page_num : Nat) : PixStore × Nat :=
  renderPageStAux
    (match s.bufs[baseId]? with | some img => img.width | none => 0)
    (match s.bufs[baseId]? with | some img => img.height | none => 0)
    s baseId all_blocks page_num

/-!
The per-file handling flow (lines 94-306 of `app.py`): everything after
file selection runs inside one `try`, whose `except Exception` turns any
error into `st.error(...)` plus an expandable traceback.  The two inner
recoverable conditions (empty fetch result, invalid JSON) are handled
before they can raise.  External collaborators (network fetch, JSON
parse, `fitz.open` with rasterization, the `content[document_key]`
lookup) are oracles, each an `Except` value covering both behaviors.
-/

/-- Oracle outcomes for the external steps of the per-file flow. -/
structure PerFileInputs where
  fetch : Except String (List Nat)
  parse : Except String Unit
  openPdf : Except String (List Img)
  lookupParts : Except String (List (List Block))

/-- What the user ends up seeing for one selected file. -/
inductive ViewOutcome where
  | emptyFile
  | invalidJson (msg : String)
  | rendered (pages : List Img)
  | errorShown (msg : String)

/-- `get_github_file_content`: catches its own `RequestException` and
returns `None` after showing an error. -/
def get_github_file_content (fetch : Except String (List Nat)) : Option (List Nat) :=
  match fetch with
  | Except.ok content => some content
  | Except.error _ => none

/-- The body of the per-file `try` block: any `Except.error` escaping it
models a Python exception reaching the outer handler. -/
def per_file_body (inp : PerFileInputs) : Except String ViewOutcome := do
  match get_github_file_content inp.fetch with
  | none => return ViewOutcome.emptyFile
  | some raw =>
    if raw.isEmpty then
      return ViewOutcome.emptyFile
    else
      match inp.parse with
      | Except.error e => return ViewOutcome.invalidJson e
      | Except.ok _ => do
        let pdf ← inp.openPdf
        let parts ← inp.lookupParts
        let all_blocks := parts.foldl (fun acc part => acc ++ part) []
        let pages ← pdf.enum.mapM
          (fun pair => renderPage pair.2 all_blocks (pair.1 + 1))
        return ViewOutcome.rendered pages

/-- The whole per-file handling flow: the `try`/`except Exception` wrapper
converting every escaping error into a visibly shown message. -/
def handle_selected_file (inp : PerFileInputs) : Except String ViewOutcome :=
  match per_file_body inp with
  | Except.ok v => Except.ok v
  | Except.error e => Except.ok (ViewOutcome.errorShown e)

/-!
Helper lemmas about the renderer.
-/

/-- The image produced by one (always successful) drawing-loop iteration. -/
def drawnImage (W H : Nat) (fill : RGBA) (img : Img) (block : Block) : Img :=
  { width := img.width, height := img.height, mode := Mode.RGBA,
    px := fun x y =>
      pilOver ((convertRGBA img).px x y)
        ((blockOverlay W H img.width img.height fill block).px x y) }

theorem drawBlockStep_eq (W H : Nat) (fill : RGBA) (img : Img) (block : Block) :
    drawBlockStep W H fill img block = Except.ok (drawnImage W H fill img block) := by
  unfold drawBlockStep alpha_composite
  rw [if_pos ⟨rfl, rfl⟩, if_pos ⟨rfl, rfl⟩]
  rfl

theorem except_bind_ok {α β ε : Type} (a : α) (f : α → Except ε β) :
    (Except.ok a >>= f : Except ε β) = f a := rfl

theorem drawGroup_nil (W H : Nat) (fill : RGBA) (img : Img) :
    drawGroup W H fill img [] = Except.ok img := rfl

theorem drawGroup_cons (W H : Nat) (fill : RGBA) (img : Img) (b : Block)
    (bs : List Block) :
    drawGroup W H fill img (b :: bs) =
      drawGroup W H fill (drawnImage W H fill img b) bs := by
  show drawBlockStep W H fill img b >>= _ = _
  rw [drawBlockStep_eq, except_bind_ok]
  rfl

theorem drawGroup_ok (W H : Nat) (fill : RGBA) (blocks : List Block) :
    ∀ img : Img, ∃ out : Img, drawGroup W H fill img blocks = Except.ok out ∧
      out.width = img.width ∧ out.height = img.height := by
  induction blocks with
  | nil => exact fun img => ⟨img, rfl, rfl, rfl⟩
  | cons b bs ih =>
    intro img
    obtain ⟨out, h1, h2, h3⟩ := ih (drawnImage W H fill img b)
    exact ⟨out, by rw [drawGroup_cons]; exact h1, h2, h3⟩

theorem blockOverlay_px (W H : Nat) (fill : RGBA) (block : Block) (x y : Nat) :
    (blockOverlay W H W H fill block).px x y =
      if paintsAt W H block x y then fill else clear := rfl

theorem convertRGBA_px_of_rgba (img : Img) (h : img.mode = Mode.RGBA) (x y : Nat) :
    (convertRGBA img).px x y = img.px x y := by
  simp [convertRGBA, h]

theorem pyInt_of_nonneg {q : ℚ} (h : 0 ≤ q) : pyInt q = q.floor := if_pos h

theorem pyInt_nonneg {q : ℚ} (h : 0 ≤ q) : 0 ≤ pyInt q := by
  rw [pyInt_of_nonneg h]
  exact Rat.le_floor.2 (by exact_mod_cast h)

theorem renderPage_eq_ok (base : Img) (blocks : List Block) (p : Nat) :
    ∃ out : Img, renderPage base blocks p = Except.ok out ∧
      out.width = base.width ∧ out.height = base.height := by
  obtain ⟨i1, e1, w1, h1⟩ :=
    drawGroup_ok base.width base.height figureFill (page_figure_blocks blocks p) base
  obtain ⟨i2, e2, w2, h2⟩ :=
    drawGroup_ok base.width base.height tableFill (page_table_blocks blocks p) i1
  obtain ⟨i3, e3, w3, h3⟩ :=
    drawGroup_ok base.width base.height textFill (page_text_blocks blocks p) i2
  obtain ⟨i4, e4, w4, h4⟩ :=
    drawGroup_ok base.width base.height headerFill (page_header_blocks blocks p) i3
  obtain ⟨i5, e5, w5, h5⟩ :=
    drawGroup_ok base.width base.height footerFill (page_footer_blocks blocks p) i4
  refine ⟨i5, ?_, by rw [w5, w4, w3, w2, w1], by rw [h5, h4, h3, h2, h1]⟩
  simp only [renderPage, e1, e2, e3, e4, e5, except_bind_ok]
  rfl

/-- Concrete 4-by-4 all-white RGB page image (as rasterized by the PDF
pixmap, which carries no alpha channel). -/
def demoBase4 : Img := ⟨4, 4, Mode.RGB, fun _ _ => ⟨255, 255, 255, 255⟩⟩

/-- Concrete 8-by-8 all-white RGB page image. -/
def demoBase8 : Img := ⟨8, 8, Mode.RGB, fun _ _ => ⟨255, 255, 255, 255⟩⟩

/-- A figure block whose bounding box has `Width = 0`. -/
def bZero : Block := ⟨"LAYOUT_FIGURE", 1, mkRat 1 2, 0, 0, mkRat 1 2⟩

/-- C10: each category's fill literal used by the drawing loops equals the
corresponding `BLOCK_COLORS` legend entry, and every legend tint has alpha
64; `renderPage` passes exactly `figureFill`, `tableFill`, `textFill`,
`headerFill`, `footerFill` to the five loops, so legend and overlays agree. -/
theorem legend_matches_render_fills :
    BLOCK_COLORS.lookup "LAYOUT_FIGURE" = some figureFill ∧
    BLOCK_COLORS.lookup "LAYOUT_TABLE" = some tableFill ∧
    BLOCK_COLORS.lookup "LAYOUT_TEXT" = some textFill ∧
    BLOCK_COLORS.lookup "LAYOUT_HEADER/TITLE" = some headerFill ∧
    BLOCK_COLORS.lookup "LAYOUT_FOOTER" = some footerFill ∧
    ∀ entry ∈ BLOCK_COLORS, entry.2.a = 64 := by
  decide

/-- C4 (amended): rendering a page with zero regions returns the base
image itself, unchanged — pixel-identical, same dimensions, same mode, and
no error is raised.  (The output is hence in an alpha-capable format only
when at least one region is composited or the input already was.) -/
theorem render_empty_regions_is_identity (base : Img) (p : Nat) :
    renderPage base [] p = Except.ok base := rfl

/-- C4 counterexample: for an RGB base image and zero regions the output
mode is RGB, not an alpha-capable format, refuting "the output of the
renderer is always in an alpha-capable pixel format". -/
theorem render_empty_regions_mode_counterexample :
    getMode (renderPage demoBase4 [] 1) = some Mode.RGB ∧ Mode.RGB ≠ Mode.RGBA := by
  decide

/-- C5: for every base image and every block list — in particular any
bounding box with `left, top` in `[0,1]` and arbitrary nonnegative
`width`, `height`, even when the box exceeds the image bounds — rendering
returns without error (`Except.ok`, never `Except.error`) and the output
has exactly the input's width and height. -/
theorem render_never_raises_and_preserves_dims (base : Img) (blocks : List Block)
    (p : Nat) :
    ∃ out : Img, renderPage base blocks p = Except.ok out ∧
      out.width = base.width ∧ out.height = base.height :=
  renderPage_eq_ok base blocks p

/-- C9: the per-file handling flow never lets an error escape: for every
behavior of the external steps (fetch, JSON parse, PDF open, document-key
lookup) and of the renderer, `handle_selected_file` returns `Except.ok`,
and whenever the `try`-body raised, the result is the visible
`ViewOutcome.errorShown` message for that error. -/
theorem per_file_errors_contained (inp : PerFileInputs) :
    ∃ v : ViewOutcome, handle_selected_file inp = Except.ok v ∧
      (per_file_body inp = Except.ok v ∨
        ∃ e : String, per_file_body inp = Except.error e ∧
          v = ViewOutcome.errorShown e) := by
  cases h : per_file_body inp with
  | ok v => exact ⟨v, by simp [handle_selected_file, h], Or.inl rfl⟩
  | error e =>
    exact ⟨ViewOutcome.errorShown e, by simp [handle_selected_file, h],
      Or.inr ⟨e, rfl, rfl⟩⟩

/-- C3 counterexample: a region with `Width = 0` is not a no-op.  On the
4-by-4 white page, the figure block `bZero` (`Left = 1/2`, `Width = 0`,
`Height = 1/2`) visibly changes pixel `(2, 0)`: PIL's corner-inclusive
`rectangle` paints the one-pixel-wide column `x = 2`, and no error is
raised. -/
theorem zero_width_region_changes_pixel :
    getPx (renderPage demoBase4 [bZero] 1) 2 0 ≠ some (demoBase4.px 2 0) := by
  decide

/-- C3 (amended): a region with `Width = 0` raises no error but paints,
instead of nothing, the degenerate corner-inclusive rectangle: exactly the
one-pixel-wide column `x = floor(W*left)`, rows `floor(H*top)` through
`floor(H*top) + floor(H*height)`, clipped to the image (and symmetrically
a one-pixel-tall row for `Height = 0`). -/
theorem zero_width_region_paints_column (W H : Nat) (fill : RGBA) (b : Block)
    (x y : Nat) (hW0 : b.Width = 0) (hL : 0 ≤ b.Left) (hT : 0 ≤ b.Top)
    (hH : 0 ≤ b.Height) (hx : x < W) (hy : y < H) :
    (blockOverlay W H W H fill b).px x y =
      if (x : ℤ) = ((W : ℚ) * b.Left).floor ∧
         ((H : ℚ) * b.Top).floor ≤ (y : ℤ) ∧
         (y : ℤ) ≤ ((H : ℚ) * b.Top).floor + ((H : ℚ) * b.Height).floor
      then fill else clear := by
  rw [blockOverlay_px]
  have hWL : (0 : ℚ) ≤ (W : ℚ) * b.Left := mul_nonneg (by positivity) hL
  have hHT : (0 : ℚ) ≤ (H : ℚ) * b.Top := mul_nonneg (by positivity) hT
  have hHH : (0 : ℚ) ≤ (H : ℚ) * b.Height := mul_nonneg (by positivity) hH
  have eW : pyInt ((W : ℚ) * b.Width) = 0 := by
    rw [hW0, mul_zero]; decide
  have eL := pyInt_of_nonneg hWL
  have eT := pyInt_of_nonneg hHT
  have eH := pyInt_of_nonneg hHH
  have nT : (0 : ℤ) ≤ ((H : ℚ) * b.Top).floor := eT ▸ pyInt_nonneg hHT
  have nH : (0 : ℤ) ≤ ((H : ℚ) * b.Height).floor := eH ▸ pyInt_nonneg hHH
  apply if_congr _ rfl rfl
  simp only [paintsAt, eW, eL, eT, eH, add_zero]
  omega

/-- Witness for the amended C3 theorem at a concrete input: on the 4-by-4
canvas, `bZero` paints exactly the column `x = 2`, checked at `(2, 1)`. -/
theorem zero_width_region_paints_column_witness :
    (blockOverlay 4 4 4 4 figureFill bZero).px 2 1 =
      if (2 : ℤ) = ((4 : ℚ) * bZero.Left).floor ∧
         ((4 : ℚ) * bZero.Top).floor ≤ (1 : ℤ) ∧
         (1 : ℤ) ≤ ((4 : ℚ) * bZero.Top).floor + ((4 : ℚ) * bZero.Height).floor
      then figureFill else clear :=
  zero_width_region_paints_column 4 4 figureFill bZero 2 1 (by decide) (by decide)
    (by decide) (by decide) (by decide) (by decide)

/-- C2: for a block with nonnegative fractions, the set of pixels of a
`W`-by-`H` image painted by its overlay is exactly the corner-inclusive
rectangle `px_left = floor(W*left)`, `px_top = floor(H*top)`,
`px_right = px_left + floor(W*width)`, `px_bottom = px_top + floor(H*height)`
with all four bounds clamped to `[0, W]` resp. `[0, H]`: a box extending
outside the image is clipped, never an error. -/
theorem painted_rect_is_floor_clamped (W H : Nat) (fill : RGBA) (b : Block)
    (x y : Nat) (hL : 0 ≤ b.Left) (hT : 0 ≤ b.Top) (hW : 0 ≤ b.Width)
    (hH : 0 ≤ b.Height) (hx : x < W) (hy : y < H) :
    (blockOverlay W H W H fill b).px x y =
      if max 0 (((W : ℚ) * b.Left).floor) ≤ (x : ℤ) ∧
         (x : ℤ) ≤ min (W : ℤ) (((W : ℚ) * b.Left).floor + ((W : ℚ) * b.Width).floor) ∧
         max 0 (((H : ℚ) * b.Top).floor) ≤ (y : ℤ) ∧
         (y : ℤ) ≤ min (H : ℤ) (((H : ℚ) * b.Top).floor + ((H : ℚ) * b.Height).floor)
      then fill else clear := by
  rw [blockOverlay_px]
  have hWL : (0 : ℚ) ≤ (W : ℚ) * b.Left := mul_nonneg (by positivity) hL
  have hWW : (0 : ℚ) ≤ (W : ℚ) * b.Width := mul_nonneg (by positivity) hW
  have hHT : (0 : ℚ) ≤ (H : ℚ) * b.Top := mul_nonneg (by positivity) hT
  have hHH : (0 : ℚ) ≤ (H : ℚ) * b.Height := mul_nonneg (by positivity) hH
  have eL := pyInt_of_nonneg hWL
  have eW := pyInt_of_nonneg hWW
  have eT := pyInt_of_nonneg hHT
  have eH := pyInt_of_nonneg hHH
  have nL : (0 : ℤ) ≤ ((W : ℚ) * b.Left).floor := eL ▸ pyInt_nonneg hWL
  have nW : (0 : ℤ) ≤ ((W : ℚ) * b.Width).floor := eW ▸ pyInt_nonneg hWW
  have nT : (0 : ℤ) ≤ ((H : ℚ) * b.Top).floor := eT ▸ pyInt_nonneg hHT
  have nH : (0 : ℤ) ≤ ((H : ℚ) * b.Height).floor := eH ▸ pyInt_nonneg hHH
  apply if_congr _ rfl rfl
  simp only [paintsAt, eL, eW, eT, eH]
  omega

/-- The spec's end-to-end style table block, scaled to a 10-by-10 page:
`left = 1/10`, `top = 1/10`, `width = 1/5`, `height = 1/20`. -/
def demoTable : Block := ⟨"LAYOUT_TABLE", 1, mkRat 1 10, mkRat 1 10, mkRat 1 5, mkRat 1 20⟩

/-- Witness for the C2 theorem at a concrete input: the table block on a
10-by-10 image, checked at pixel `(2, 1)` (inside the painted rectangle). -/
theorem painted_rect_is_floor_clamped_witness :
    (blockOverlay 10 10 10 10 tableFill demoTable).px 2 1 =
      if max 0 (((10 : ℚ) * demoTable.Left).floor) ≤ (2 : ℤ) ∧
         (2 : ℤ) ≤ min (10 : ℤ)
           (((10 : ℚ) * demoTable.Left).floor + ((10 : ℚ) * demoTable.Width).floor) ∧
         max 0 (((10 : ℚ) * demoTable.Top).floor) ≤ (1 : ℤ) ∧
         (1 : ℤ) ≤ min (10 : ℤ)
           (((10 : ℚ) * demoTable.Top).floor + ((10 : ℚ) * demoTable.Height).floor)
      then tableFill else clear :=
  painted_rect_is_floor_clamped 10 10 tableFill demoTable 2 1 (by decide) (by decide)
    (by decide) (by decide) (by decide) (by decide)

theorem drawnImage_px (W H : Nat) (fill : RGBA) (img : Img) (b : Block) (x y : Nat) :
    (drawnImage W H fill img b).px x y =
      pilOver ((convertRGBA img).px x y)
        ((blockOverlay W H img.width img.height fill b).px x y) := rfl

/-- C1: with the text group holding `bT` and the footer group holding `bF`
(and the other groups empty), the renderer composites in the fixed order
figure, table, text, header/title, footer; at a pixel covered by both the
text and the footer rectangles, the output equals the "over" composite of
the lower (text) tint followed by the upper (footer) tint onto the base
pixel — layered, not overwritten or averaged. -/
theorem overlap_composites_lower_then_upper (base : Img) (blocks : List Block)
    (p : Nat) (bT bF : Block) (x y : Nat)
    (hfig : page_figure_blocks blocks p = [])
    (htab : page_table_blocks blocks p = [])
    (htext : page_text_blocks blocks p = [bT])
    (hhead : page_header_blocks blocks p = [])
    (hfoot : page_footer_blocks blocks p = [bF])
    (hT : paintsAt base.width base.height bT x y)
    (hF : paintsAt base.width base.height bF x y) :
    ∃ out : Img, renderPage base blocks p = Except.ok out ∧
      out.px x y =
        pilOver (pilOver ((convertRGBA base).px x y) textFill) footerFill := by
  refine ⟨drawnImage base.width base.height footerFill
      (drawnImage base.width base.height textFill base bT) bF, ?_, ?_⟩
  · simp only [renderPage, hfig, htab, htext, hhead, hfoot, drawGroup_nil,
      except_bind_ok, drawGroup_cons]
    rfl
  · rw [drawnImage_px, convertRGBA_px_of_rgba _ rfl, drawnImage_px]
    rw [show (drawnImage base.width base.height textFill base bT).width
          = base.width from rfl,
        show (drawnImage base.width base.height textFill base bT).height
          = base.height from rfl]
    rw [blockOverlay_px, blockOverlay_px, if_pos hT, if_pos hF]

/-- A text block covering the top-left quarter of the 8-by-8 page. -/
def demoText : Block := ⟨"LAYOUT_TEXT", 1, 0, 0, mkRat 1 2, mkRat 1 2⟩

/-- A footer block overlapping `demoText`, centered on the 8-by-8 page. -/
def demoFooter : Block := ⟨"LAYOUT_FOOTER", 1, mkRat 1 4, mkRat 1 4, mkRat 1 2, mkRat 1 2⟩

/-- Witness for the C1 theorem at a concrete input: text under footer on
the white 8-by-8 page, checked at overlap pixel `(3, 3)`. -/
theorem overlap_composites_lower_then_upper_witness :
    ∃ out : Img, renderPage demoBase8 [demoText, demoFooter] 1 = Except.ok out ∧
      out.px 3 3 =
        pilOver (pilOver ((convertRGBA demoBase8).px 3 3) textFill) footerFill :=
  overlap_composites_lower_then_upper demoBase8 [demoText, demoFooter] 1 demoText
    demoFooter 3 3 (by decide) (by decide) (by decide) (by decide) (by decide)
    (by decide) (by decide)

theorem filter2_middle (pg tp : Block → Bool) (pre post : List Block) (b : Block)
    (hb : tp b = false) :
    ((pre ++ b :: post).filter pg).filter tp = ((pre ++ post).filter pg).filter tp := by
  by_cases hpg : pg b <;>
    simp [List.filter_append, List.filter_cons, hpg, hb]

/-- C6: a block whose `BlockType` is outside the renderer's enumerated set
(the five drawn categories, with header/title matching three tags) lands in
no drawing group, so rendering with it present equals rendering without it:
the output image is unchanged everywhere and no error is raised. -/
theorem unknown_category_has_no_effect (base : Img) (pre post : List Block)
    (b : Block) (p : Nat)
    (hb : b.BlockType ∉ (["LAYOUT_FIGURE", "LAYOUT_TABLE", "LAYOUT_TEXT",
      "LAYOUT_SECTION_HEADER", "LAYOUT_HEADER", "LAYOUT_TITLE",
      "LAYOUT_FOOTER"] : List String)) :
    renderPage base (pre ++ b :: post) p = renderPage base (pre ++ post) p := by
  simp only [List.mem_cons, List.not_mem_nil, or_false, not_or] at hb
  obtain ⟨h1, h2, h3, h4, h5, h6, h7⟩ := hb
  have e1 : page_figure_blocks (pre ++ b :: post) p = page_figure_blocks (pre ++ post) p :=
    filter2_middle _ _ pre post b (by simp [h1])
  have e2 : page_table_blocks (pre ++ b :: post) p = page_table_blocks (pre ++ post) p :=
    filter2_middle _ _ pre post b (by simp [h2])
  have e3 : page_text_blocks (pre ++ b :: post) p = page_text_blocks (pre ++ post) p :=
    filter2_middle _ _ pre post b (by simp [h3])
  have e4 : page_header_blocks (pre ++ b :: post) p = page_header_blocks (pre ++ post) p :=
    filter2_middle _ _ pre post b (by simp [h4, h5, h6])
  have e5 : page_footer_blocks (pre ++ b :: post) p = page_footer_blocks (pre ++ post) p :=
    filter2_middle _ _ pre post b (by simp [h7])
  simp only [renderPage, e1, e2, e3, e4, e5]

/-- A block with a category outside the renderer's enumerated set. -/
def bUnknown : Block := ⟨"LAYOUT_KEY_VALUE", 1, 0, 0, 1, 1⟩

/-- Witness for the C6 theorem at a concrete input: a `LAYOUT_KEY_VALUE`
block alone on the page renders identically to no blocks at all. -/
theorem unknown_category_has_no_effect_witness :
    renderPage demoBase4 [bUnknown] 1 = renderPage demoBase4 [] 1 :=
  unknown_category_has_no_effect demoBase4 [] [] bUnknown 1 (by decide)

/-- C8: a block tagged `LAYOUT_SECTION_HEADER` (or `LAYOUT_HEADER`,
`LAYOUT_TITLE`) on page `p` is included in that page's header/title overlay
group, yet contributes nothing to the `stats` dictionary, which counts only
`LINE`, `WORD`, `LAYOUT_FIGURE` and `LAYOUT_TABLE` blocks. -/
theorem section_header_drawn_but_uncounted (all_blocks : List Block) (b : Block)
    (pc p : Nat)
    (hb : b.BlockType = "LAYOUT_SECTION_HEADER" ∨ b.BlockType = "LAYOUT_HEADER" ∨
      b.BlockType = "LAYOUT_TITLE")
    (hp : b.Page = p) :
    b ∈ page_header_blocks (b :: all_blocks) p ∧
      stats pc (b :: all_blocks) = stats pc all_blocks := by
  constructor
  · refine List.mem_filter.2 ⟨List.mem_filter.2 ⟨List.mem_cons_self b all_blocks, ?_⟩, ?_⟩
    · simp [hp]
    · rcases hb with h | h | h <;> simp [h]
  · have l1 : line_blocks (b :: all_blocks) = line_blocks all_blocks := by
      rcases hb with h | h | h <;> simp [line_blocks, List.filter_cons, h]
    have w1 : word_blocks (b :: all_blocks) = word_blocks all_blocks := by
      rcases hb with h | h | h <;> simp [word_blocks, List.filter_cons, h]
    have f1 : figure_blocks (b :: all_blocks) = figure_blocks all_blocks := by
      rcases hb with h | h | h <;> simp [figure_blocks, List.filter_cons, h]
    have t1 : table_blocks (b :: all_blocks) = table_blocks all_blocks := by
      rcases hb with h | h | h <;> simp [table_blocks, List.filter_cons, h]
    simp [stats, l1, w1, f1, t1]

/-- A section-header block on page 1. -/
def demoSection : Block := ⟨"LAYOUT_SECTION_HEADER", 1, 0, 0, mkRat 1 2, mkRat 1 4⟩

/-- Witness for the C8 theorem at a concrete input. -/
theorem section_header_drawn_but_uncounted_witness :
    demoSection ∈ page_header_blocks [demoSection] 1 ∧
      stats 1 [demoSection] = stats 1 [] :=
  section_header_drawn_but_uncounted [] demoSection 1 1 (Or.inl rfl) rfl

theorem drawBlockStepSt_frame (W H : Nat) (fill : RGBA) (sp : PixStore × Nat)
    (b : Block) :
    sp.1.bufs.length ≤ (drawBlockStepSt W H fill sp b).1.bufs.length ∧
    ∀ j, j < sp.1.bufs.length →
      (drawBlockStepSt W H fill sp b).1.bufs[j]? = sp.1.bufs[j]? := by
  unfold drawBlockStepSt
  cases hbuf : sp.1.bufs[sp.2]? with
  | none => exact ⟨Nat.le_refl _, fun j hj => rfl⟩
  | some img =>
    dsimp only
    rw [show alpha_composite (convertRGBA img)
          (blockOverlay W H img.width img.height fill b)
        = Except.ok (drawnImage W H fill img b) from drawBlockStep_eq W H fill img b]
    refine ⟨?_, fun j hj => ?_⟩
    · simp only [store_alloc, store_set, List.length_append, List.length_set,
        List.length_cons, List.length_nil]
      omega
    · simp only [store_alloc, store_set]
      rw [List.getElem?_append_left (by simp; omega),
        List.getElem?_append_left (by simp; omega),
        List.getElem?_set_ne (Nat.ne_of_gt hj),
        List.getElem?_append_left hj]

theorem drawGroupSt_frame (W H : Nat) (fill : RGBA) (blocks : List Block) :
    ∀ sp : PixStore × Nat,
      sp.1.bufs.length ≤ (drawGroupSt W H fill sp blocks).1.bufs.length ∧
      ∀ j, j < sp.1.bufs.length →
        (drawGroupSt W H fill sp blocks).1.bufs[j]? = sp.1.bufs[j]? := by
  induction blocks with
  | nil => exact fun sp => ⟨Nat.le_refl _, fun j hj => rfl⟩
  | cons b bs ih =>
    intro sp
    obtain ⟨hlen1, hpre1⟩ := drawBlockStepSt_frame W H fill sp b
    obtain ⟨hlen2, hpre2⟩ := ih (drawBlockStepSt W H fill sp b)
    exact ⟨Nat.le_trans hlen1 hlen2, fun j hj =>
      (hpre2 j (Nat.lt_of_lt_of_le hj hlen1)).trans (hpre1 j hj)⟩

theorem renderPageStAux_frame (W H : Nat) (s : PixStore) (baseId : Nat)
    (all_blocks : List Block) (p : Nat) (j : Nat) (hj : j < s.bufs.length) :
    (renderPageStAux W H s baseId all_blocks p).1.bufs[j]? = s.bufs[j]? := by
  unfold renderPageStAux
  set sp1 := drawGroupSt W H figureFill (s, baseId) (page_figure_blocks all_blocks p)
  set sp2 := drawGroupSt W H tableFill sp1 (page_table_blocks all_blocks p)
  set sp3 := drawGroupSt W H textFill sp2 (page_text_blocks all_blocks p)
  set sp4 := drawGroupSt W H headerFill sp3 (page_header_blocks all_blocks p)
  obtain ⟨l1, p1⟩ := drawGroupSt_frame W H figureFill (page_figure_blocks all_blocks p) (s, baseId)
  obtain ⟨l2, p2⟩ := drawGroupSt_frame W H tableFill (page_table_blocks all_blocks p) sp1
  obtain ⟨l3, p3⟩ := drawGroupSt_frame W H textFill (page_text_blocks all_blocks p) sp2
  obtain ⟨l4, p4⟩ := drawGroupSt_frame W H headerFill (page_header_blocks all_blocks p) sp3
  obtain ⟨l5, p5⟩ := drawGroupSt_frame W H footerFill (page_footer_blocks all_blocks p) sp4
  have j1 : j < sp1.1.bufs.length := Nat.lt_of_lt_of_le hj l1
  have j2 : j < sp2.1.bufs.length := Nat.lt_of_lt_of_le j1 l2
  have j3 : j < sp3.1.bufs.length := Nat.lt_of_lt_of_le j2 l3
  have j4 : j < sp4.1.bufs.length := Nat.lt_of_lt_of_le j3 l4
  exact (p5 j j4).trans ((p4 j j3).trans ((p3 j j2).trans ((p2 j j1).trans (p1 j hj))))

/-- C7 (amended): rendering on the buffer store never mutates any buffer
that existed before the call — in particular the base image buffer is
bit-identical afterwards; the renderer only allocates fresh buffers (one
fresh output per region actually composited; with zero drawn regions the
input buffer itself is handed back, unmutated). -/
theorem renderPageSt_never_mutates (s : PixStore) (baseId : Nat)
    (all_blocks : List Block) (p : Nat) (j : Nat) (hj : j < s.bufs.length) :
    (renderPageSt s baseId all_blocks p).1.bufs[j]? = s.bufs[j]? :=
  renderPageStAux_frame _ _ s baseId all_blocks p j hj

/-- A store holding the 4-by-4 base image as its only buffer. -/
def demoStore : PixStore := ⟨[demoBase4]⟩

/-- C7 counterexample: with zero drawn regions the renderer returns the
input buffer id itself and allocates nothing — the store and the `img`
variable are exactly as before — refuting "for every invocation it
produces a new, independent output buffer". -/
theorem render_store_no_regions_returns_input_buffer :
    renderPageSt demoStore 0 [] 1 = (demoStore, 0) := rfl

/-- Witness for the amended C7 theorem at a concrete input: after drawing
one text block, the pre-existing base buffer 0 is unchanged. -/
theorem renderPageSt_never_mutates_witness :
    0 < demoStore.bufs.length ∧
      (renderPageSt demoStore 0 [demoText] 1).1.bufs[0]? = demoStore.bufs[0]? :=
  ⟨by decide, renderPageSt_never_mutates demoStore 0 [demoText] 1 0 (by decide)⟩
